import Mathlib

/-!
A shallow embedding of the asset-specification registry, the validation
engine and the procedural geometry-assembly library of the greenkeeper
asset pipeline (`tools/blender/asset_specs.py`, `tools/blender/export_glb.py`,
`tools/blender/generators/_common/geometry.py`,
`tools/blender/generators/_common/nature.py`).

Numbers: the Python source computes with IEEE doubles; the embedding uses
exact rationals (`ℚ`), the standard idealisation for dimension arithmetic.
Decimal literals such as `1.1` denote the exact rational `11/10`.

Scene objects: the host (Blender) is an external collaborator.  The parts
of its object model that the embedded functions read are carried
explicitly: an object has a name, a type tag, local-space mesh vertices
and a world-space location (the generators in this repository only ever
translate objects, never rotate or scale them after creation, so
`matrix_world` is a pure translation by `location`).
-/

namespace Greenkeeper

/-- A 3-component vector of exact rationals (models `mathutils.Vector`). -/
structure Vec3 where
  x : ℚ
  y : ℚ
  z : ℚ
deriving DecidableEq, Repr

instance : Add Vec3 := ⟨fun a b => ⟨a.x + b.x, a.y + b.y, a.z + b.z⟩⟩

instance : Sub Vec3 := ⟨fun a b => ⟨a.x - b.x, a.y - b.y, a.z - b.z⟩⟩

instance : Zero Vec3 := ⟨⟨0, 0, 0⟩⟩

theorem Vec3.add_def (a b : Vec3) : a + b = ⟨a.x + b.x, a.y + b.y, a.z + b.z⟩ := rfl

theorem Vec3.sub_def (a b : Vec3) : a - b = ⟨a.x - b.x, a.y - b.y, a.z - b.z⟩ := rfl

/-- The origin-convention enum of an `AssetSpec` (the `"origin"` field in
`asset_specs.py`; every registry entry carries one of these two values). -/
inductive Origin where
  | base_center
  | center
deriving DecidableEq, Repr

/-- One registry entry of `ASSET_SPECS` in `asset_specs.py`.  The Python
value is a dict; the fields present in every entry become record fields,
the `required_animations` key (present only on character entries) becomes
an `Option`, mirroring dict-key absence.  The free-text `notes` field
carries no validation semantics (it is only printed by `print_manifest`)
and is not part of the embedding. -/
structure AssetSpec where
  height_range : ℚ × ℚ
  footprint : ℚ × ℚ
  origin : Origin
  required_animations : Option (List String)
deriving DecidableEq, Repr

/-- The comment-delimited sections of the `ASSET_SPECS` table in
`asset_specs.py`, one list per section (entries in source order; the
`notes` strings are omitted, see `AssetSpec`). -/
def specs_characters : List (String × AssetSpec) := [
  ("character.greenkeeper", ⟨(1.75, 1.85), (0.5, 0.5), Origin.base_center, some ["idle", "walk", "push"]⟩),
  ("character.employee", ⟨(1.70, 1.85), (0.5, 0.5), Origin.base_center, some ["idle", "walk", "push"]⟩),
  ("character.golfer.male", ⟨(1.70, 1.85), (0.5, 0.5), Origin.base_center, some ["idle", "walk", "swing"]⟩),
  ("character.golfer.female", ⟨(1.60, 1.75), (0.5, 0.5), Origin.base_center, some ["idle", "walk", "swing"]⟩)]

def specs_trees : List (String × AssetSpec) := [
  ("tree.pine.small", ⟨(3.0, 4.0), (1.5, 1.5), Origin.base_center, none⟩),
  ("tree.pine.medium", ⟨(5.0, 7.0), (2.5, 2.5), Origin.base_center, none⟩),
  ("tree.pine.large", ⟨(8.0, 12.0), (4.0, 4.0), Origin.base_center, none⟩),
  ("tree.oak.small", ⟨(3.0, 5.0), (2.0, 2.0), Origin.base_center, none⟩),
  ("tree.oak.medium", ⟨(6.0, 9.0), (4.0, 4.0), Origin.base_center, none⟩),
  ("tree.oak.large", ⟨(10.0, 15.0), (6.0, 6.0), Origin.base_center, none⟩),
  ("tree.palm", ⟨(4.0, 8.0), (1.0, 1.0), Origin.base_center, none⟩),
  ("tree.willow", ⟨(5.0, 8.0), (4.0, 4.0), Origin.base_center, none⟩),
  ("tree.cypress", ⟨(6.0, 12.0), (1.5, 1.5), Origin.base_center, none⟩),
  ("tree.maple.small", ⟨(3.0, 5.0), (2.0, 2.0), Origin.base_center, none⟩),
  ("tree.maple.medium", ⟨(6.0, 9.0), (4.0, 4.0), Origin.base_center, none⟩),
  ("tree.birch", ⟨(5.0, 8.0), (2.0, 2.0), Origin.base_center, none⟩),
  ("tree.magnolia", ⟨(4.0, 7.0), (3.0, 3.0), Origin.base_center, none⟩),
  ("tree.dogwood", ⟨(3.0, 5.0), (2.5, 2.5), Origin.base_center, none⟩)]

def specs_shrubs : List (String × AssetSpec) := [
  ("shrub.hedge", ⟨(0.8, 1.5), (1.0, 1.0), Origin.base_center, none⟩),
  ("shrub.hedge.tall", ⟨(1.8, 2.5), (1.0, 1.0), Origin.base_center, none⟩),
  ("shrub.flowering.azalea", ⟨(0.6, 1.2), (1.0, 1.0), Origin.base_center, none⟩),
  ("shrub.flowering.rhododendron", ⟨(1.0, 2.0), (1.5, 1.5), Origin.base_center, none⟩),
  ("shrub.ornamental.grass", ⟨(0.5, 1.2), (0.8, 0.8), Origin.base_center, none⟩),
  ("shrub.juniper", ⟨(0.4, 0.8), (1.5, 1.5), Origin.base_center, none⟩)]

def specs_flowers : List (String × AssetSpec) := [
  ("flower.bed.mixed", ⟨(0.2, 0.4), (1.0, 1.0), Origin.base_center, none⟩),
  ("flower.bed.roses", ⟨(0.5, 1.0), (1.0, 1.0), Origin.base_center, none⟩),
  ("flower.planter", ⟨(0.6, 0.8), (0.5, 0.5), Origin.base_center, none⟩)]

def specs_equipment : List (String × AssetSpec) := [
  ("equipment.mower.push", ⟨(0.8, 1.2), (0.5, 0.8), Origin.base_center, none⟩),
  ("equipment.spreader", ⟨(0.8, 1.1), (0.5, 0.6), Origin.base_center, none⟩),
  ("equipment.sprinkler.handheld", ⟨(0.3, 0.5), (0.2, 0.8), Origin.base_center, none⟩),
  ("equipment.rake", ⟨(1.4, 1.6), (0.4, 0.1), Origin.base_center, none⟩),
  ("equipment.aerator.manual", ⟨(0.9, 1.1), (0.3, 0.3), Origin.base_center, none⟩),
  ("equipment.trimmer", ⟨(1.0, 1.3), (0.3, 0.3), Origin.base_center, none⟩),
  ("equipment.blower", ⟨(0.4, 0.6), (0.3, 0.5), Origin.base_center, none⟩),
  ("equipment.edger", ⟨(0.9, 1.1), (0.2, 0.4), Origin.base_center, none⟩)]

def specs_vehicles : List (String × AssetSpec) := [
  ("vehicle.mower.riding", ⟨(1.2, 1.6), (1.2, 2.0), Origin.base_center, none⟩),
  ("vehicle.mower.fairway", ⟨(1.4, 1.8), (2.0, 3.0), Origin.base_center, none⟩),
  ("vehicle.mower.greens", ⟨(1.0, 1.4), (1.0, 1.8), Origin.base_center, none⟩),
  ("vehicle.cart.golf", ⟨(1.6, 1.9), (1.2, 2.4), Origin.base_center, none⟩),
  ("vehicle.cart.utility", ⟨(1.4, 1.8), (1.3, 2.8), Origin.base_center, none⟩),
  ("vehicle.tractor", ⟨(2.0, 2.5), (1.8, 3.5), Origin.base_center, none⟩),
  ("vehicle.aerator.ride", ⟨(1.4, 1.8), (1.5, 2.5), Origin.base_center, none⟩),
  ("vehicle.sprayer", ⟨(1.5, 2.0), (1.5, 3.0), Origin.base_center, none⟩)]

def specs_irrigation : List (String × AssetSpec) := [
  ("irrigation.pipe.straight", ⟨(0.1, 0.2), (1.0, 0.2), Origin.base_center, none⟩),
  ("irrigation.pipe.corner", ⟨(0.1, 0.2), (0.5, 0.5), Origin.base_center, none⟩),
  ("irrigation.pipe.tee", ⟨(0.1, 0.2), (1.0, 0.5), Origin.base_center, none⟩),
  ("irrigation.pipe.cross", ⟨(0.1, 0.2), (1.0, 1.0), Origin.base_center, none⟩),
  ("irrigation.sprinkler.popup", ⟨(0.05, 0.15), (0.15, 0.15), Origin.base_center, none⟩),
  ("irrigation.sprinkler.rotor", ⟨(0.1, 0.2), (0.2, 0.2), Origin.base_center, none⟩),
  ("irrigation.valve.box", ⟨(0.1, 0.15), (0.4, 0.3), Origin.base_center, none⟩),
  ("irrigation.water.source", ⟨(0.4, 0.6), (0.6, 0.6), Origin.base_center, none⟩),
  ("irrigation.water.tank", ⟨(1.5, 2.0), (1.5, 1.5), Origin.base_center, none⟩)]

def specs_course : List (String × AssetSpec) := [
  ("course.flag", ⟨(2.0, 2.5), (0.1, 0.1), Origin.base_center, none⟩),
  ("course.cup", ⟨(0.1, 0.15), (0.12, 0.12), Origin.base_center, none⟩),
  ("course.tee.marker.red", ⟨(0.15, 0.25), (0.1, 0.1), Origin.base_center, none⟩),
  ("course.tee.marker.white", ⟨(0.15, 0.25), (0.1, 0.1), Origin.base_center, none⟩),
  ("course.tee.marker.blue", ⟨(0.15, 0.25), (0.1, 0.1), Origin.base_center, none⟩),
  ("course.tee.marker.gold", ⟨(0.15, 0.25), (0.1, 0.1), Origin.base_center, none⟩),
  ("course.yardage.marker.100", ⟨(0.3, 0.5), (0.2, 0.2), Origin.base_center, none⟩),
  ("course.yardage.marker.150", ⟨(0.3, 0.5), (0.2, 0.2), Origin.base_center, none⟩),
  ("course.yardage.marker.200", ⟨(0.3, 0.5), (0.2, 0.2), Origin.base_center, none⟩),
  ("course.ball", ⟨(0.04, 0.05), (0.04, 0.04), Origin.center, none⟩),
  ("course.bunker.rake", ⟨(1.4, 1.6), (0.4, 0.1), Origin.base_center, none⟩)]

def specs_amenities : List (String × AssetSpec) := [
  ("amenity.bench", ⟨(0.8, 1.0), (1.5, 0.6), Origin.base_center, none⟩),
  ("amenity.trash.bin", ⟨(0.9, 1.1), (0.5, 0.5), Origin.base_center, none⟩),
  ("amenity.ball.washer", ⟨(0.9, 1.1), (0.3, 0.3), Origin.base_center, none⟩),
  ("amenity.drinking.fountain", ⟨(0.9, 1.1), (0.4, 0.4), Origin.base_center, none⟩),
  ("amenity.cooler", ⟨(0.8, 1.0), (0.4, 0.4), Origin.base_center, none⟩),
  ("amenity.shelter.small", ⟨(2.5, 3.0), (3.0, 3.0), Origin.base_center, none⟩),
  ("amenity.restroom", ⟨(2.8, 3.5), (3.0, 4.0), Origin.base_center, none⟩),
  ("amenity.snack.bar", ⟨(2.5, 3.0), (4.0, 3.0), Origin.base_center, none⟩)]

def specs_buildings : List (String × AssetSpec) := [
  ("building.clubhouse.small", ⟨(4.0, 6.0), (12.0, 8.0), Origin.base_center, none⟩),
  ("building.clubhouse.medium", ⟨(5.0, 8.0), (20.0, 15.0), Origin.base_center, none⟩),
  ("building.clubhouse.large", ⟨(6.0, 10.0), (30.0, 20.0), Origin.base_center, none⟩),
  ("building.maintenance.shed", ⟨(3.0, 4.0), (6.0, 8.0), Origin.base_center, none⟩),
  ("building.cart.barn", ⟨(3.0, 4.0), (10.0, 6.0), Origin.base_center, none⟩),
  ("building.pump.house", ⟨(2.0, 2.5), (2.5, 2.5), Origin.base_center, none⟩),
  ("building.starter.hut", ⟨(2.5, 3.0), (2.5, 2.5), Origin.base_center, none⟩)]

def specs_decor : List (String × AssetSpec) := [
  ("decor.rock.small", ⟨(0.2, 0.4), (0.4, 0.4), Origin.base_center, none⟩),
  ("decor.rock.medium", ⟨(0.5, 0.8), (0.8, 0.8), Origin.base_center, none⟩),
  ("decor.rock.large", ⟨(1.0, 1.5), (1.5, 1.5), Origin.base_center, none⟩),
  ("decor.rock.cluster", ⟨(0.4, 0.8), (1.5, 1.5), Origin.base_center, none⟩),
  ("decor.fountain", ⟨(1.0, 2.0), (2.0, 2.0), Origin.base_center, none⟩),
  ("decor.statue", ⟨(1.5, 2.5), (0.8, 0.8), Origin.base_center, none⟩),
  ("decor.sundial", ⟨(0.8, 1.2), (0.6, 0.6), Origin.base_center, none⟩)]

def specs_fencing : List (String × AssetSpec) := [
  ("fence.wood.section", ⟨(1.0, 1.2), (2.0, 0.1), Origin.base_center, none⟩),
  ("fence.wood.post", ⟨(1.0, 1.3), (0.15, 0.15), Origin.base_center, none⟩),
  ("fence.white.section", ⟨(1.0, 1.2), (2.0, 0.1), Origin.base_center, none⟩),
  ("fence.chain.section", ⟨(1.5, 2.0), (2.0, 0.1), Origin.base_center, none⟩),
  ("fence.rope.post", ⟨(0.8, 1.0), (0.1, 0.1), Origin.base_center, none⟩)]

def specs_bridges_paths : List (String × AssetSpec) := [
  ("bridge.wood.small", ⟨(0.8, 1.2), (2.0, 4.0), Origin.base_center, none⟩),
  ("bridge.wood.medium", ⟨(1.0, 1.5), (3.0, 6.0), Origin.base_center, none⟩),
  ("bridge.stone", ⟨(1.2, 2.0), (4.0, 8.0), Origin.base_center, none⟩),
  ("path.sign.directional", ⟨(1.0, 1.4), (0.3, 0.3), Origin.base_center, none⟩),
  ("path.sign.rules", ⟨(1.2, 1.6), (0.5, 0.1), Origin.base_center, none⟩)]

def specs_water : List (String × AssetSpec) := [
  ("water.fountain.aerator", ⟨(0.1, 0.2), (0.5, 0.5), Origin.base_center, none⟩),
  ("water.dock.small", ⟨(0.3, 0.5), (2.0, 4.0), Origin.base_center, none⟩),
  ("water.bulkhead.section", ⟨(0.5, 0.8), (2.0, 0.3), Origin.base_center, none⟩)]

def specs_wildlife : List (String × AssetSpec) := [
  ("wildlife.bird.bath", ⟨(0.7, 1.0), (0.5, 0.5), Origin.base_center, none⟩),
  ("wildlife.birdhouse", ⟨(0.3, 0.4), (0.2, 0.2), Origin.base_center, none⟩),
  ("wildlife.duck.decoy", ⟨(0.2, 0.3), (0.3, 0.2), Origin.base_center, none⟩)]

/-- The complete `ASSET_SPECS` table of `asset_specs.py`: the concatenation
of its sections, in source order. -/
def ASSET_SPECS : List (String × AssetSpec) :=
  specs_characters ++ specs_trees ++ specs_shrubs ++ specs_flowers ++
    specs_equipment ++ specs_vehicles ++ specs_irrigation ++ specs_course ++
      specs_amenities ++ specs_buildings ++ specs_decor ++ specs_fencing ++
        specs_bridges_paths ++ specs_water ++ specs_wildlife

/-- Function `get_spec` of `asset_specs.py`: dictionary lookup, `None` on absence. -/
def get_spec (asset_id : String) : Option AssetSpec :=
  ASSET_SPECS.lookup asset_id

/-- Fixed-point rendering with `d` fractional digits: the embedding of the
CPython format specifier `:.df` over the exact-rational number model
(round half up; the digits never matter to any theorem below, only that
the rendering is a fixed function of the number). -/
def fmtFixed (d : Nat) (q : ℚ) : String :=
  let n : Int := Int.floor (q * (10 : ℚ) ^ d + 1 / 2)
  let sign := if n < 0 then "-" else ""
  let m := n.natAbs
  let frac := toString (m % 10 ^ d)
  let pad := String.mk (List.replicate (d - frac.length) (Char.ofNat 48))
  sign ++ toString (m / 10 ^ d) ++ "." ++ pad ++ frac

/-- The height-violation message of `validate_dimensions`. -/
def heightMsg (height min_h max_h : ℚ) : String :=
  "Height " ++ fmtFixed 2 height ++ " out of range [" ++ fmtFixed 2 min_h ++
    ", " ++ fmtFixed 2 max_h ++ "]"

/-- The width-violation message of `validate_dimensions`. -/
def widthMsg (width max_w : ℚ) : String :=
  "Width " ++ fmtFixed 2 width ++ " exceeds max footprint " ++ fmtFixed 2 max_w

/-- The depth-violation message of `validate_dimensions`. -/
def depthMsg (depth max_d : ℚ) : String :=
  "Depth " ++ fmtFixed 2 depth ++ " exceeds max footprint " ++ fmtFixed 2 max_d

/-- Function `validate_dimensions` of `asset_specs.py`: unknown id short-circuits;
otherwise the height check, then the width check, then the depth check
each append at most one message to the error list. -/
def validate_dimensions (asset_id : String) (height width depth : ℚ) : List String :=
  match get_spec asset_id with
  | none => ["Unknown asset ID: " ++ asset_id]
  | some spec =>
    let min_h := spec.height_range.1
    let max_h := spec.height_range.2
    let max_w := spec.footprint.1
    let max_d := spec.footprint.2
    (if height < min_h ∨ height > max_h then [heightMsg height min_h max_h] else []) ++
      (if width > max_w * 1.1 then [widthMsg width max_w] else []) ++
        (if depth > max_d * 1.1 then [depthMsg depth max_d] else [])

/-- C1: for every asset id with a registry entry, `validate_dimensions`
returns exactly these violation messages and no others, in this order: a
height message iff the height lies strictly outside `height_range` (the
bounds themselves pass), then a width message iff the width strictly
exceeds `max_width * 1.1`, then a depth message iff the depth strictly
exceeds `max_depth * 1.1`; the result is empty exactly when all three
checks pass. -/
theorem C1_validate_dimensions_known (asset_id : String) (spec : AssetSpec)
    (h : get_spec asset_id = some spec) (height width depth : ℚ) :
    validate_dimensions asset_id height width depth =
        (if height < spec.height_range.1 ∨ height > spec.height_range.2
          then [heightMsg height spec.height_range.1 spec.height_range.2] else []) ++
          (if width > spec.footprint.1 * 1.1 then [widthMsg width spec.footprint.1] else []) ++
            (if depth > spec.footprint.2 * 1.1 then [depthMsg depth spec.footprint.2] else []) ∧
      (validate_dimensions asset_id height width depth = [] ↔
        ¬(height < spec.height_range.1 ∨ height > spec.height_range.2) ∧
          ¬(width > spec.footprint.1 * 1.1) ∧ ¬(depth > spec.footprint.2 * 1.1)) := by
  refine ⟨by simp only [validate_dimensions, h], ?_⟩
  simp only [validate_dimensions, h]
  have hite : ∀ (c : Prop) (inst : Decidable c) (m : String),
      ((if c then [m] else []) = ([] : List String)) ↔ ¬c := by
    intro c inst m
    split_ifs with hc <;> simp [hc]
  simp only [List.append_eq_nil, hite, and_assoc]

/-- Witness for C1, instantiated at Scenario A of the spec: the
`tree.pine.medium` entry with measured height 6, width 2.6, depth 2.4
passes all three checks (width 2.6 is within the 10 percent tolerance of
footprint 2.5). -/
theorem C1_witness : validate_dimensions "tree.pine.medium" 6 2.6 2.4 = [] :=
  (C1_validate_dimensions_known "tree.pine.medium"
      ⟨(5.0, 7.0), (2.5, 2.5), Origin.base_center, none⟩ rfl 6 2.6 2.4).2.mpr
    (by norm_num)

/-- C2: for every asset id without a registry entry, and all measured
dimensions, `validate_dimensions` returns exactly one message, the string
`Unknown asset ID: ` followed by the queried id, and no dimensional rule
contributes any further message. -/
theorem C2_validate_dimensions_unknown (asset_id : String)
    (h : get_spec asset_id = none) (height width depth : ℚ) :
    validate_dimensions asset_id height width depth =
      ["Unknown asset ID: " ++ asset_id] := by
  simp only [validate_dimensions, h]

/-- Witness for C2 at Scenario C of the spec: the unknown id
`tree.sequoia` yields exactly the single message
`Unknown asset ID: tree.sequoia`. -/
theorem C2_witness :
    validate_dimensions "tree.sequoia" 1 1 1 = ["Unknown asset ID: tree.sequoia"] :=
  C2_validate_dimensions_unknown "tree.sequoia" rfl 1 1 1

/-! ## Scene objects and the geometry-assembly library -/

/-- The Blender object types the embedded functions branch on
(`obj.type` in the source; `EMPTY` stands for every non-mesh,
non-armature type). -/
inductive ObjType where
  | MESH
  | ARMATURE
  | EMPTY
deriving DecidableEq, Repr

/-- A scene object, carrying exactly the data the embedded functions
read: the name, the type tag, the local-space mesh vertices (`obj.data`)
and the world-space location (`obj.location`; the generators only ever
translate objects after creation, so `matrix_world` is the translation by
`location`). -/
structure Obj where
  name : String
  type : ObjType
  verts : List Vec3
  location : Vec3
deriving DecidableEq, Repr

/-- Minimum of a list of rationals (`min(...)` in Python; `0` on the
empty list, on which the source never calls it). -/
def listMin : List ℚ → ℚ
  | [] => 0
  | x :: xs => xs.foldl min x

/-- Maximum of a list of rationals (`max(...)` in Python; `0` on the
empty list, on which the source never calls it). -/
def listMax : List ℚ → ℚ
  | [] => 0
  | x :: xs => xs.foldl max x

/-- The local-space bound box of the mesh data of an object, as Blender
exposes `obj.bound_box`: the 8 corner points of the axis-aligned box of
the local vertices, in Blender corner order.  An object without vertices
gets the all-zero degenerate box, as in Blender. -/
def bound_box (o : Obj) : List Vec3 :=
  let mnx := listMin (o.verts.map Vec3.x)
  let mxx := listMax (o.verts.map Vec3.x)
  let mny := listMin (o.verts.map Vec3.y)
  let mxy := listMax (o.verts.map Vec3.y)
  let mnz := listMin (o.verts.map Vec3.z)
  let mxz := listMax (o.verts.map Vec3.z)
  [⟨mnx, mny, mnz⟩, ⟨mnx, mny, mxz⟩, ⟨mnx, mxy, mxz⟩, ⟨mnx, mxy, mnz⟩,
    ⟨mxx, mny, mnz⟩, ⟨mxx, mny, mxz⟩, ⟨mxx, mxy, mxz⟩, ⟨mxx, mxy, mnz⟩]

/-- The offset vector computed by `set_origin_to_base` in
`generators/_common/geometry.py`: x and y are the mean of the 8 bound-box
corners (`sum(...) / 8`), z is the bound-box minimum. -/
def originOffset (o : Obj) : Vec3 :=
  let bbox := bound_box o
  ⟨(bbox.map Vec3.x).sum / 8, (bbox.map Vec3.y).sum / 8, listMin (bbox.map Vec3.z)⟩

/-- Function `set_origin_to_base` of `generators/_common/geometry.py`: translates
the mesh data by the negated offset (`obj.data.transform`) and adds the
offset to the object location. -/
def set_origin_to_base (o : Obj) : Obj :=
  ⟨o.name, o.type, o.verts.map (fun v => v - originOffset o),
    o.location + originOffset o⟩

theorem Vec3.ext_comp (a b : Vec3) (hx : a.x = b.x) (hy : a.y = b.y)
    (hz : a.z = b.z) : a = b := by
  cases a; cases b; simp_all

theorem foldl_min_map_sub (c : ℚ) (l : List ℚ) :
    ∀ a : ℚ, (l.map (fun q => q - c)).foldl min (a - c) = l.foldl min a - c := by
  induction l with
  | nil => intro a; rfl
  | cons b t ih =>
    intro a
    simp only [List.map_cons, List.foldl_cons, min_sub_sub_right]
    exact ih (min a b)

theorem foldl_max_map_sub (c : ℚ) (l : List ℚ) :
    ∀ a : ℚ, (l.map (fun q => q - c)).foldl max (a - c) = l.foldl max a - c := by
  induction l with
  | nil => intro a; rfl
  | cons b t ih =>
    intro a
    simp only [List.map_cons, List.foldl_cons, max_sub_sub_right]
    exact ih (max a b)

theorem listMin_map_sub (c : ℚ) (l : List ℚ) (h : l ≠ []) :
    listMin (l.map (fun q => q - c)) = listMin l - c := by
  cases l with
  | nil => exact absurd rfl h
  | cons a t => simpa [listMin] using foldl_min_map_sub c t a

theorem listMax_map_sub (c : ℚ) (l : List ℚ) (h : l ≠ []) :
    listMax (l.map (fun q => q - c)) = listMax l - c := by
  cases l with
  | nil => exact absurd rfl h
  | cons a t => simpa [listMax] using foldl_max_map_sub c t a

theorem foldl_min_le_foldl_max (l : List ℚ) :
    ∀ a b : ℚ, a ≤ b → l.foldl min a ≤ l.foldl max b := by
  induction l with
  | nil => intro a b h; simpa using h
  | cons c t ih =>
    intro a b h
    simp only [List.foldl_cons]
    exact ih _ _ ((min_le_left a c).trans (h.trans (le_max_left b c)))

theorem listMin_le_listMax (l : List ℚ) (h : l ≠ []) : listMin l ≤ listMax l := by
  cases l with
  | nil => exact absurd rfl h
  | cons a t => exact foldl_min_le_foldl_max t a a le_rfl

/-- The z coordinates of the 8 bound-box corners have minimum equal to the
minimum z over the vertices. -/
theorem bbox_min_z (o : Obj) (h : o.verts ≠ []) :
    listMin ((bound_box o).map Vec3.z) = listMin (o.verts.map Vec3.z) := by
  have hz : listMin (o.verts.map Vec3.z) ≤ listMax (o.verts.map Vec3.z) :=
    listMin_le_listMax _ (by simpa using h)
  set mn := listMin (o.verts.map Vec3.z) with hmn
  set mx := listMax (o.verts.map Vec3.z) with hmx
  show listMin [mn, mx, mx, mn, mn, mx, mx, mn] = mn
  simp [listMin, min_eq_left hz, min_self]

theorem bbox_sum_x (o : Obj) :
    ((bound_box o).map Vec3.x).sum =
      4 * (listMin (o.verts.map Vec3.x) + listMax (o.verts.map Vec3.x)) := by
  simp only [bound_box, List.map_cons, List.map_nil, List.sum_cons, List.sum_nil]
  ring

theorem bbox_sum_y (o : Obj) :
    ((bound_box o).map Vec3.y).sum =
      4 * (listMin (o.verts.map Vec3.y) + listMax (o.verts.map Vec3.y)) := by
  simp only [bound_box, List.map_cons, List.map_nil, List.sum_cons, List.sum_nil]
  ring

/-- The offset of `set_origin_to_base` is the horizontal bound-box center
and the vertical bound-box minimum. -/
theorem originOffset_eq (o : Obj) (h : o.verts ≠ []) :
    originOffset o =
      ⟨(listMin (o.verts.map Vec3.x) + listMax (o.verts.map Vec3.x)) / 2,
        (listMin (o.verts.map Vec3.y) + listMax (o.verts.map Vec3.y)) / 2,
        listMin (o.verts.map Vec3.z)⟩ := by
  apply Vec3.ext_comp
  · show ((bound_box o).map Vec3.x).sum / 8 = _
    rw [bbox_sum_x]; ring
  · show ((bound_box o).map Vec3.y).sum / 8 = _
    rw [bbox_sum_y]; ring
  · exact bbox_min_z o h

/-- Mapping a coordinate projection over translated vertices translates
the coordinate list. -/
theorem map_proj_sub (p : Vec3 → ℚ) (hp : ∀ a b : Vec3, p (a - b) = p a - p b)
    (vs : List Vec3) (w : Vec3) :
    (vs.map (fun v => v - w)).map p = (vs.map p).map (fun q => q - p w) := by
  simp only [List.map_map]
  exact List.map_congr_left (fun a _ => hp a w)

theorem proj_x_sub (a b : Vec3) : Vec3.x (a - b) = a.x - b.x := rfl

theorem proj_y_sub (a b : Vec3) : Vec3.y (a - b) = a.y - b.y := rfl

theorem proj_z_sub (a b : Vec3) : Vec3.z (a - b) = a.z - b.z := rfl

theorem set_origin_minX (o : Obj) (h : o.verts ≠ []) :
    listMin ((set_origin_to_base o).verts.map Vec3.x) =
      listMin (o.verts.map Vec3.x) - (originOffset o).x := by
  show listMin ((o.verts.map (fun v => v - originOffset o)).map Vec3.x) = _
  rw [map_proj_sub Vec3.x proj_x_sub, listMin_map_sub _ _ (by simpa using h)]

theorem set_origin_maxX (o : Obj) (h : o.verts ≠ []) :
    listMax ((set_origin_to_base o).verts.map Vec3.x) =
      listMax (o.verts.map Vec3.x) - (originOffset o).x := by
  show listMax ((o.verts.map (fun v => v - originOffset o)).map Vec3.x) = _
  rw [map_proj_sub Vec3.x proj_x_sub, listMax_map_sub _ _ (by simpa using h)]

theorem set_origin_minY (o : Obj) (h : o.verts ≠ []) :
    listMin ((set_origin_to_base o).verts.map Vec3.y) =
      listMin (o.verts.map Vec3.y) - (originOffset o).y := by
  show listMin ((o.verts.map (fun v => v - originOffset o)).map Vec3.y) = _
  rw [map_proj_sub Vec3.y proj_y_sub, listMin_map_sub _ _ (by simpa using h)]

theorem set_origin_maxY (o : Obj) (h : o.verts ≠ []) :
    listMax ((set_origin_to_base o).verts.map Vec3.y) =
      listMax (o.verts.map Vec3.y) - (originOffset o).y := by
  show listMax ((o.verts.map (fun v => v - originOffset o)).map Vec3.y) = _
  rw [map_proj_sub Vec3.y proj_y_sub, listMax_map_sub _ _ (by simpa using h)]

theorem set_origin_minZ (o : Obj) (h : o.verts ≠ []) :
    listMin ((set_origin_to_base o).verts.map Vec3.z) =
      listMin (o.verts.map Vec3.z) - (originOffset o).z := by
  show listMin ((o.verts.map (fun v => v - originOffset o)).map Vec3.z) = _
  rw [map_proj_sub Vec3.z proj_z_sub, listMin_map_sub _ _ (by simpa using h)]

/-- C6: `set_origin_to_base` translates the mesh data by some offset and
shifts the object location by the equal and opposite vector, leaving the
world-space position of every vertex unchanged; afterwards the local
bounding box has horizontal center X = 0 and Y = 0 and minimum Z = 0. -/
theorem C6_set_origin_to_base_effect (o : Obj) (h : o.verts ≠ []) :
    (∃ offset : Vec3,
        (set_origin_to_base o).verts = o.verts.map (fun v => v - offset) ∧
          (set_origin_to_base o).location = o.location + offset) ∧
      (set_origin_to_base o).verts.map (fun v => (set_origin_to_base o).location + v) =
          o.verts.map (fun v => o.location + v) ∧
      (listMin ((set_origin_to_base o).verts.map Vec3.x) +
          listMax ((set_origin_to_base o).verts.map Vec3.x)) / 2 = 0 ∧
      (listMin ((set_origin_to_base o).verts.map Vec3.y) +
          listMax ((set_origin_to_base o).verts.map Vec3.y)) / 2 = 0 ∧
      listMin ((set_origin_to_base o).verts.map Vec3.z) = 0 := by
  have hoff := originOffset_eq o h
  refine ⟨⟨originOffset o, rfl, rfl⟩, ?_, ?_, ?_, ?_⟩
  · show (o.verts.map (fun v => v - originOffset o)).map
        (fun v => (o.location + originOffset o) + v) = _
    rw [List.map_map]
    refine List.map_congr_left (fun v _ => ?_)
    apply Vec3.ext_comp <;> simp [Vec3.add_def, Vec3.sub_def]
  · rw [set_origin_minX o h, set_origin_maxX o h, hoff]
    simp only
    ring
  · rw [set_origin_minY o h, set_origin_maxY o h, hoff]
    simp only
    ring
  · rw [set_origin_minZ o h, hoff]
    simp only
    ring

/-- Witness for C6 at a concrete two-vertex mesh object. -/
theorem C6_witness :
    (Obj.mk "Part" ObjType.MESH [⟨1, 2, 3⟩, ⟨-1, 0, 1⟩] ⟨0, 0, 0⟩).verts ≠ [] ∧
      ((∃ offset : Vec3,
        (set_origin_to_base (Obj.mk "Part" ObjType.MESH [⟨1, 2, 3⟩, ⟨-1, 0, 1⟩] ⟨0, 0, 0⟩)).verts =
            (Obj.mk "Part" ObjType.MESH [⟨1, 2, 3⟩, ⟨-1, 0, 1⟩] ⟨0, 0, 0⟩).verts.map
              (fun v => v - offset) ∧
          (set_origin_to_base (Obj.mk "Part" ObjType.MESH [⟨1, 2, 3⟩, ⟨-1, 0, 1⟩] ⟨0, 0, 0⟩)).location =
            (Obj.mk "Part" ObjType.MESH [⟨1, 2, 3⟩, ⟨-1, 0, 1⟩] ⟨0, 0, 0⟩).location + offset) ∧
      (set_origin_to_base (Obj.mk "Part" ObjType.MESH [⟨1, 2, 3⟩, ⟨-1, 0, 1⟩] ⟨0, 0, 0⟩)).verts.map
          (fun v => (set_origin_to_base (Obj.mk "Part" ObjType.MESH [⟨1, 2, 3⟩, ⟨-1, 0, 1⟩] ⟨0, 0, 0⟩)).location + v) =
          (Obj.mk "Part" ObjType.MESH [⟨1, 2, 3⟩, ⟨-1, 0, 1⟩] ⟨0, 0, 0⟩).verts.map
            (fun v => (Obj.mk "Part" ObjType.MESH [⟨1, 2, 3⟩, ⟨-1, 0, 1⟩] ⟨0, 0, 0⟩).location + v) ∧
      (listMin ((set_origin_to_base (Obj.mk "Part" ObjType.MESH [⟨1, 2, 3⟩, ⟨-1, 0, 1⟩] ⟨0, 0, 0⟩)).verts.map Vec3.x) +
          listMax ((set_origin_to_base (Obj.mk "Part" ObjType.MESH [⟨1, 2, 3⟩, ⟨-1, 0, 1⟩] ⟨0, 0, 0⟩)).verts.map Vec3.x)) / 2 = 0 ∧
      (listMin ((set_origin_to_base (Obj.mk "Part" ObjType.MESH [⟨1, 2, 3⟩, ⟨-1, 0, 1⟩] ⟨0, 0, 0⟩)).verts.map Vec3.y) +
          listMax ((set_origin_to_base (Obj.mk "Part" ObjType.MESH [⟨1, 2, 3⟩, ⟨-1, 0, 1⟩] ⟨0, 0, 0⟩)).verts.map Vec3.y)) / 2 = 0 ∧
      listMin ((set_origin_to_base (Obj.mk "Part" ObjType.MESH [⟨1, 2, 3⟩, ⟨-1, 0, 1⟩] ⟨0, 0, 0⟩)).verts.map Vec3.z) = 0) :=
  ⟨by simp, C6_set_origin_to_base_effect _ (by simp)⟩

/-- The offset computed by a second application of `set_origin_to_base`
is zero. -/
theorem originOffset_set_origin (o : Obj) (h : o.verts ≠ []) :
    originOffset (set_origin_to_base o) = ⟨0, 0, 0⟩ := by
  have h' : (set_origin_to_base o).verts ≠ [] := by
    show o.verts.map _ ≠ []
    simpa using h
  rw [originOffset_eq _ h', set_origin_minX o h, set_origin_maxX o h,
    set_origin_minY o h, set_origin_maxY o h, set_origin_minZ o h,
    originOffset_eq o h]
  apply Vec3.ext_comp <;> simp only <;> ring

/-- C5: applying `set_origin_to_base` twice yields exactly the same
object as applying it once: the second application computes a zero offset
and is a no-op. -/
theorem C5_set_origin_to_base_idem (o : Obj) (h : o.verts ≠ []) :
    set_origin_to_base (set_origin_to_base o) = set_origin_to_base o := by
  have hzero := originOffset_set_origin o h
  have hmap : ∀ vs : List Vec3, vs.map (fun v => v - (⟨0, 0, 0⟩ : Vec3)) = vs := by
    intro vs
    have hfun : (fun v : Vec3 => v - ⟨0, 0, 0⟩) = id :=
      funext fun v => by apply Vec3.ext_comp <;> simp [Vec3.sub_def]
    rw [hfun, List.map_id]
  have hadd : ∀ w : Vec3, w + (⟨0, 0, 0⟩ : Vec3) = w := fun w => by
    apply Vec3.ext_comp <;> simp [Vec3.add_def]
  have step : set_origin_to_base (set_origin_to_base o) =
      ⟨(set_origin_to_base o).name, (set_origin_to_base o).type,
        (set_origin_to_base o).verts.map
          (fun v => v - originOffset (set_origin_to_base o)),
        (set_origin_to_base o).location + originOffset (set_origin_to_base o)⟩ := rfl
  rw [step, hzero, hmap, hadd]

/-- Witness for C5 at a concrete two-vertex mesh object. -/
theorem C5_witness :
    (Obj.mk "Part" ObjType.MESH [⟨1, 2, 3⟩, ⟨-1, 0, 1⟩] ⟨0, 0, 0⟩).verts ≠ [] ∧
      set_origin_to_base (set_origin_to_base
          (Obj.mk "Part" ObjType.MESH [⟨1, 2, 3⟩, ⟨-1, 0, 1⟩] ⟨0, 0, 0⟩)) =
        set_origin_to_base (Obj.mk "Part" ObjType.MESH [⟨1, 2, 3⟩, ⟨-1, 0, 1⟩] ⟨0, 0, 0⟩) :=
  ⟨by simp, C5_set_origin_to_base_idem _ (by simp)⟩

/-! ## The origin check of the export gate -/

theorem bbox_sum_z (o : Obj) :
    ((bound_box o).map Vec3.z).sum =
      4 * (listMin (o.verts.map Vec3.z) + listMax (o.verts.map Vec3.z)) := by
  simp only [bound_box, List.map_cons, List.map_nil, List.sum_cons, List.sum_nil]
  ring

/-- The base-origin violation message of `check_origin`. -/
def originBaseMsg (local_min_z : ℚ) : String :=
  "Origin should be at base (Z=0), but mesh bottom is at Z=" ++ fmtFixed 3 local_min_z

/-- The center-origin violation message of `check_origin`. -/
def originCenterMsg (center_z : ℚ) : String :=
  "Origin should be at center, but center Z is " ++ fmtFixed 3 center_z

/-- Function `check_origin` of `export_glb.py`: walks the objects, skips non-mesh
ones, and returns at the first mesh object violating the origin
convention of the spec; for `base_center` the violation test is
`abs(min z of bound_box) > 0.01`, for `center` it is
`abs(mean z of the 8 bound-box corners) > 0.05`. -/
def check_origin (objects : List Obj) (spec : AssetSpec) : Bool × String :=
  match objects with
  | [] => (true, "")
  | obj :: rest =>
    if obj.type ≠ ObjType.MESH then check_origin rest spec
    else
      let local_min_z := listMin ((bound_box obj).map Vec3.z)
      match spec.origin with
      | Origin.base_center =>
        if |local_min_z| > 0.01 then (false, originBaseMsg local_min_z)
        else check_origin rest spec
      | Origin.center =>
        let center_z := ((bound_box obj).map Vec3.z).sum / 8
        if |center_z| > 0.05 then (false, originCenterMsg center_z)
        else check_origin rest spec

/-- The z coordinate of the centroid of the local geometry of an object:
the mean of its vertex z coordinates.  Stated from the words of the spec
for claim C3; the source computes the mean of the 8 bound-box corners
instead. -/
def centroidZ (o : Obj) : ℚ := (o.verts.map Vec3.z).sum / o.verts.length

/-- Counterexample to C3 as stated: a mesh object with vertex z
coordinates -1, 1, 1 has its centroid at z = 1/3, far outside the 0.05
tolerance, yet `check_origin` under the `center` convention reports no
violation, because the mean of the bound-box corners (z = 0) is what the
code tests. -/
theorem C3_counterexample :
    (check_origin [Obj.mk "Ball" ObjType.MESH [⟨0, 0, -1⟩, ⟨0, 0, 1⟩, ⟨0, 0, 1⟩] ⟨0, 0, 0⟩]
          (AssetSpec.mk (0.04, 0.05) (0.04, 0.04) Origin.center none)).1 = true ∧
      ¬|centroidZ (Obj.mk "Ball" ObjType.MESH [⟨0, 0, -1⟩, ⟨0, 0, 1⟩, ⟨0, 0, 1⟩] ⟨0, 0, 0⟩)| ≤
        0.05 := by
  constructor
  · simp only [check_origin, bound_box, listMin, listMax, centroidZ]
    norm_num
  · simp only [centroidZ]
    norm_num
    rw [abs_of_pos] <;> norm_num

/-- C3 (amended): for a single mesh object with nonempty geometry, the
`base_center` convention reports a violation iff the lowest point of the
local geometry is not within 0.01 units of local Z = 0, and the `center`
convention reports a violation iff the Z coordinate of the center of the
local bounding box (the mean of its corners, not the vertex centroid) is
not within 0.05 units of 0. -/
theorem C3_check_origin_single (o : Obj) (spec : AssetSpec)
    (hm : o.type = ObjType.MESH) (hv : o.verts ≠ []) :
    (check_origin [o] spec).1 = false ↔
      (spec.origin = Origin.base_center ∧ ¬|listMin (o.verts.map Vec3.z)| ≤ 0.01) ∨
        (spec.origin = Origin.center ∧
          ¬|(listMin (o.verts.map Vec3.z) + listMax (o.verts.map Vec3.z)) / 2| ≤ 0.05) := by
  have hbz := bbox_min_z o hv
  have hc2 : ((bound_box o).map Vec3.z).sum / 8 =
      (listMin (o.verts.map Vec3.z) + listMax (o.verts.map Vec3.z)) / 2 := by
    rw [bbox_sum_z]; ring
  cases ho : spec.origin with
  | base_center =>
    simp only [check_origin, hm, ho, hbz, ne_eq, not_true_eq_false, if_false]
    split_ifs with hc <;> simp [hc, not_le]
  | center =>
    simp only [check_origin, hm, ho, hc2, ne_eq, not_true_eq_false, if_false]
    split_ifs with hc <;> simp [hc, not_le]

/-- Witness for the amended C3: a mesh object resting on Z = 0 checked
under the `base_center` convention of the `tree.pine.medium` entry
reports no violation. -/
theorem C3_witness :
    (Obj.mk "Pine" ObjType.MESH [⟨0, 0, 0⟩, ⟨1, 1, 2⟩] ⟨0, 0, 0⟩).type = ObjType.MESH ∧
      (Obj.mk "Pine" ObjType.MESH [⟨0, 0, 0⟩, ⟨1, 1, 2⟩] ⟨0, 0, 0⟩).verts ≠ [] ∧
      ((check_origin [Obj.mk "Pine" ObjType.MESH [⟨0, 0, 0⟩, ⟨1, 1, 2⟩] ⟨0, 0, 0⟩]
            (AssetSpec.mk (5.0, 7.0) (2.5, 2.5) Origin.base_center none)).1 = false ↔
        ((AssetSpec.mk (5.0, 7.0) (2.5, 2.5) Origin.base_center none).origin = Origin.base_center ∧
            ¬|listMin ((Obj.mk "Pine" ObjType.MESH [⟨0, 0, 0⟩, ⟨1, 1, 2⟩] ⟨0, 0, 0⟩).verts.map Vec3.z)| ≤ 0.01) ∨
          ((AssetSpec.mk (5.0, 7.0) (2.5, 2.5) Origin.base_center none).origin = Origin.center ∧
            ¬|(listMin ((Obj.mk "Pine" ObjType.MESH [⟨0, 0, 0⟩, ⟨1, 1, 2⟩] ⟨0, 0, 0⟩).verts.map Vec3.z) +
                listMax ((Obj.mk "Pine" ObjType.MESH [⟨0, 0, 0⟩, ⟨1, 1, 2⟩] ⟨0, 0, 0⟩).verts.map Vec3.z)) / 2| ≤ 0.05)) :=
  ⟨rfl, by simp, C3_check_origin_single _ _ rfl (by simp)⟩

/-! ## The animation check of the export gate -/

/-- The embedding of the Python `str.lower()` call used by
`check_animations`: lowercases every character (`Char.toLower` lowercases
the basic latin letters, as CPython does for ASCII action names). -/
def strLower (s : String) : String :=
  String.mk (s.data.map Char.toLower)

/-- Function `check_animations` of `export_glb.py`: looks up the spec of the asset
id (no entry: vacuously ok), reads `required_animations` with default
`[]` (an absent key means nothing is required), lowercases the names of
all actions in the scene, and collects the required names whose
lowercase form is not among them; a nonempty missing list yields `False`
with one combined message. -/
def check_animations (asset_id : String) (actions : List String) : Bool × String :=
  match get_spec asset_id with
  | none => (true, "")
  | some spec =>
    let required := spec.required_animations.getD []
    if required = [] then (true, "")
    else
      let found_anims := actions.map strLower
      let missing := required.filter (fun req => !(found_anims.contains (strLower req)))
      if missing = [] then (true, "")
      else (false, "Missing required animations: " ++ String.intercalate ", " missing)

/-- C4: with a nonempty required set, each required name is matched
case-insensitively against the available names; the check passes exactly
when nothing is missing, and otherwise returns a single combined message
listing all missing names; a name is missing exactly when it is required
and its lowercase form is not among the lowercased available names. -/
theorem C4_check_animations (asset_id : String) (spec : AssetSpec)
    (required : List String) (h : get_spec asset_id = some spec)
    (hr : spec.required_animations = some required) (hne : required ≠ [])
    (actions : List String) :
    (check_animations asset_id actions = (true, "") ↔
        required.filter
          (fun req => !((actions.map strLower).contains (strLower req))) = []) ∧
      (required.filter
          (fun req => !((actions.map strLower).contains (strLower req))) ≠ [] →
        check_animations asset_id actions =
          (false, "Missing required animations: " ++ String.intercalate ", "
            (required.filter
              (fun req => !((actions.map strLower).contains (strLower req)))))) ∧
      (∀ r, r ∈ required.filter
          (fun req => !((actions.map strLower).contains (strLower req))) ↔
        r ∈ required ∧ ¬(actions.map strLower).contains (strLower r) = true) := by
  simp only [check_animations, h, hr, Option.getD_some]
  rw [if_neg hne]
  refine ⟨?_, ?_, ?_⟩
  · split_ifs with hm
    · exact iff_of_true rfl hm
    · exact iff_of_false (fun hc => absurd (congrArg Prod.fst hc) (by simp)) hm
  · intro hm
    rw [if_neg hm]
  · intro r
    simp [List.mem_filter]

/-- Witness for C4 at Scenario D of the spec (adapted to the registry):
`character.greenkeeper` requires idle, walk and push; with only the
case-differing action name IDLE available, the check fails with the one
combined message naming walk and push. -/
theorem C4_witness :
    check_animations "character.greenkeeper" ["IDLE"] =
      (false, "Missing required animations: walk, push") := by
  have h := (C4_check_animations "character.greenkeeper"
      ⟨(1.75, 1.85), (0.5, 0.5), Origin.base_center, some ["idle", "walk", "push"]⟩
      ["idle", "walk", "push"] rfl rfl (by simp) ["IDLE"]).2.1 (by decide)
  exact h

/-- C10: for every registry entry without a `required_animations` field
(and equally one with an empty required list), the animation check
reports no violation whatever the available animation names are. -/
theorem C10_check_animations_absent (asset_id : String) (spec : AssetSpec)
    (h : get_spec asset_id = some spec)
    (hr : spec.required_animations = none ∨ spec.required_animations = some [])
    (actions : List String) :
    check_animations asset_id actions = (true, "") := by
  rcases hr with hr | hr <;> simp [check_animations, h, hr]

/-- Witness for C10: `tree.pine.medium` has no `required_animations`
field and passes the animation check with no actions available. -/
theorem C10_witness : check_animations "tree.pine.medium" [] = (true, "") :=
  C10_check_animations_absent "tree.pine.medium"
    ⟨(5.0, 7.0), (2.5, 2.5), Origin.base_center, none⟩ rfl (Or.inl rfl) []

/-! ## The composite assembler -/

/-- Function `join_objects` of `generators/_common/geometry.py`: an empty part
list is explicitly guarded (`if not objects: return None`); otherwise
every part is merged destructively into the first (active) object, the
mesh data of the others carried into the local space of the active
object, and the resulting name overridden when one is given. -/
def join_objects (objects : List Obj) (name : Option String) : Option Obj :=
  match objects with
  | [] => none
  | active :: rest =>
    some ⟨name.getD active.name, active.type,
      active.verts ++
        rest.flatMap (fun o => o.verts.map (fun v => v + o.location - active.location)),
      active.location⟩

/-- C8: `join_objects` applied to the empty part list is explicitly
guarded and returns no object instead of performing a merge; a joined
object is produced exactly for nonempty part lists. -/
theorem C8_join_objects_empty_guard (name : Option String) :
    join_objects [] name = none ∧
      ∀ (active : Obj) (rest : List Obj),
        (join_objects (active :: rest) name).isSome = true :=
  ⟨rfl, fun _ _ => rfl⟩

/-- The bounding box record `calculate_bounds` returns (the dict with
keys min, max, width, depth, height). -/
structure Bounds where
  min : Vec3
  max : Vec3
  width : ℚ
  depth : ℚ
  height : ℚ
deriving DecidableEq, Repr

/-- One step of the min/max corner accumulation in `calculate_bounds`.
The accumulator value `none` models the initial
`(inf, inf, inf) / (-inf, -inf, -inf)` sentinel corners (exact rationals
have no infinities, and no mesh corner ever produces them: an
accumulator no corner has touched is `none`, and the final
`min_co[0] == float(inf)` test of the source is the `none` test). -/
def bounds_fold (acc : Option (Vec3 × Vec3)) (c : Vec3) : Option (Vec3 × Vec3) :=
  match acc with
  | none => some (c, c)
  | some (mn, mx) =>
    some (⟨min mn.x c.x, min mn.y c.y, min mn.z c.z⟩,
      ⟨max mx.x c.x, max mx.y c.y, max mx.z c.z⟩)

/-- The per-object step of `calculate_bounds`: non-mesh objects are
skipped, for mesh objects all 8 world-space bound-box corners
(`matrix_world @ corner`, a translation by the location here) are folded
into the accumulator. -/
def bounds_step (acc : Option (Vec3 × Vec3)) (obj : Obj) : Option (Vec3 × Vec3) :=
  if obj.type ≠ ObjType.MESH then acc
  else ((bound_box obj).map (fun c => obj.location + c)).foldl bounds_fold acc

/-- Function `calculate_bounds` of `export_glb.py`: `None` for the empty object
list, `None` when no mesh corner touched the accumulator, otherwise the
bounding box with width along X, depth along Y and height along Z. -/
def calculate_bounds (objects : List Obj) : Option Bounds :=
  if objects.isEmpty then none
  else
    match objects.foldl bounds_step none with
    | none => none
    | some (mn, mx) => some ⟨mn, mx, mx.x - mn.x, mx.y - mn.y, mx.z - mn.z⟩

theorem bounds_fold_isSome (acc : Option (Vec3 × Vec3)) (c : Vec3) :
    (bounds_fold acc c).isSome = true := by
  rcases acc with _ | ⟨mn, mx⟩ <;> rfl

theorem foldl_bounds_fold_isSome (cs : List Vec3) :
    ∀ acc : Option (Vec3 × Vec3), acc.isSome = true →
      (cs.foldl bounds_fold acc).isSome = true := by
  induction cs with
  | nil => intro acc h; exact h
  | cons c t ih => intro acc _; exact ih _ (bounds_fold_isSome acc c)

theorem bounds_step_none_iff (acc : Option (Vec3 × Vec3)) (obj : Obj) :
    bounds_step acc obj = none ↔ acc = none ∧ obj.type ≠ ObjType.MESH := by
  unfold bounds_step
  split_ifs with h
  · simp [h]
  · have hne : ((bound_box obj).map (fun c => obj.location + c)) ≠ [] := by
      simp [bound_box]
    have hsome : (((bound_box obj).map (fun c => obj.location + c)).foldl
        bounds_fold acc).isSome = true := by
      rcases hcs : (bound_box obj).map (fun c => obj.location + c) with _ | ⟨c, cs⟩
      · exact absurd hcs hne
      · simpa [List.foldl_cons] using
          foldl_bounds_fold_isSome cs _ (bounds_fold_isSome acc c)
    constructor
    · intro hnone
      rw [hnone] at hsome
      exact absurd hsome (by simp)
    · intro ⟨_, hm⟩
      exact absurd h (by simpa using hm)

theorem foldl_bounds_step_none_iff (objects : List Obj) :
    ∀ acc : Option (Vec3 × Vec3),
      objects.foldl bounds_step acc = none ↔
        acc = none ∧ ∀ o ∈ objects, o.type ≠ ObjType.MESH := by
  induction objects with
  | nil => intro acc; simp
  | cons o t ih =>
    intro acc
    rw [List.foldl_cons, ih, bounds_step_none_iff]
    constructor
    · rintro ⟨⟨h1, h2⟩, h3⟩
      exact ⟨h1, fun x hx => (List.mem_cons.mp hx).elim (fun e => e ▸ h2) (h3 x)⟩
    · rintro ⟨h1, h2⟩
      exact ⟨⟨h1, h2 o (List.mem_cons_self o t)⟩,
        fun x hx => h2 x (List.mem_cons_of_mem o hx)⟩

/-- C9: `calculate_bounds` returns the explicit no-bounds signal exactly
when the object list contains no mesh object (in particular on the empty
list), and a bounding box is returned exactly when at least one mesh
object is present. -/
theorem C9_calculate_bounds_none_iff (objects : List Obj) :
    (calculate_bounds objects = none ↔ ∀ o ∈ objects, o.type ≠ ObjType.MESH) ∧
      ((∃ o ∈ objects, o.type = ObjType.MESH) → ∃ b, calculate_bounds objects = some b) := by
  have hmain : calculate_bounds objects = none ↔
      ∀ o ∈ objects, o.type ≠ ObjType.MESH := by
    unfold calculate_bounds
    split_ifs with he
    · have : objects = [] := List.isEmpty_iff.mp he
      subst this
      simp
    · have hfold := foldl_bounds_step_none_iff objects none
      rcases hacc : objects.foldl bounds_step none with _ | ⟨mn, mx⟩
      · exact iff_of_true rfl ((hfold.mp hacc).2)
      · refine iff_of_false (by simp) (fun hall => ?_)
        rw [hfold.mpr ⟨rfl, hall⟩] at hacc
        exact Option.noConfusion hacc
  refine ⟨hmain, fun ⟨o, ho, hm⟩ => ?_⟩
  rcases hb : calculate_bounds objects with _ | b
  · exact absurd hm (hmain.mp hb o ho)
  · exact ⟨b, rfl⟩

/-! ## The procedural shrub recipe and its seeded jitter -/

/-- The model of `random.seed(seed)` of the Python `random` module, the
external standard-library collaborator: seeding makes the global
generator state a pure function of the seed.  A linear-congruential
initialisation stands in for the Mersenne twister; no theorem depends on
the constants, only on determinism. -/
def rngSeed (seed : Nat) : Nat :=
  (6364136223846793005 * seed + 1442695040888963407) % (2 ^ 64)

/-- The model of one `random.uniform(a, b)` draw of the Python `random`
module: a value in the requested interval and the advanced generator
state, both pure functions of the incoming state. -/
def rngUniform (a b : ℚ) (state : Nat) : ℚ × Nat :=
  let state2 := (6364136223846793005 * state + 1442695040888963407) % (2 ^ 64)
  (a + (b - a) * ((state2 % 2 ^ 53 : Nat) : ℚ) / 2 ^ 53, state2)

/-- The model of the external Blender operator
`bpy.ops.mesh.primitive_ico_sphere_add`: a deterministic function of its
arguments giving the local vertices of the created sphere mesh.  The
exact tessellation is a collaborator detail outside the repository; the
octahedral seed points of the subdivision stand in for it. -/
def icoSphereVerts (radius : ℚ) (_subdivisions : Nat) : List Vec3 :=
  [⟨radius, 0, 0⟩, ⟨-radius, 0, 0⟩, ⟨0, radius, 0⟩, ⟨0, -radius, 0⟩,
    ⟨0, 0, radius⟩, ⟨0, 0, -radius⟩]

/-- The per-vertex jitter loop of `create_shrub`: for each vertex in
order, draw `random.uniform(-0.1, 0.1)`, scale by the height, and
displace the vertex z coordinate attenuated toward the poles
(`1 - abs(z) / (height / 2)`), threading the generator state. -/
def jitterVerts (height : ℚ) : List Vec3 → Nat → List Vec3 × Nat
  | [], state => ([], state)
  | v :: vs, state =>
    let d := rngUniform (-0.1) 0.1 state
    let offset := d.1 * height
    let v2 : Vec3 := ⟨v.x, v.y, v.z + offset * (1 - |v.z| / (height / 2))⟩
    let rest := jitterVerts height vs d.2
    (v2 :: rest.1, rest.2)

/-- Function `create_shrub` of `generators/_common/nature.py`, geometry-relevant
steps: `random.seed(seed)` overwrites the incoming global generator
state; a unit ico sphere is created at `(0, 0, height * 0.5)`; the
`(width/2, width/2, height/2)` scale is folded into the vertices
(`transform_apply(scale=True)`); the seeded generator jitters the vertex
z coordinates; `set_origin_to_base` re-anchors the result.  The material
assignment touches no vertex data and is omitted.  The function takes
the global generator state before the call and returns the shrub
together with the state after it. -/
def create_shrub (height : ℚ) (width? : Option ℚ) (seed : Nat)
    (_state0 : Nat) : Obj × Nat :=
  let state1 := rngSeed seed
  let width := width?.getD (height * 1.2)
  let scaled := (icoSphereVerts 1 2).map
    (fun v => ⟨v.x * (width / 2), v.y * (width / 2), v.z * (height / 2)⟩)
  let jittered := jitterVerts height scaled state1
  (set_origin_to_base ⟨"Shrub", ObjType.MESH, jittered.1, ⟨0, 0, height * 0.5⟩⟩,
    jittered.2)

/-- C7: `create_shrub` is deterministic: with identical parameters and
seed, two invocations started from arbitrary, possibly different, prior
global generator states produce the identical object — vertex positions
included — and the identical final generator state: the per-vertex
jitter is fully determined by the seed and the parameters, because
`random.seed(seed)` overwrites the global state before any draw. -/
theorem C7_create_shrub_deterministic (height : ℚ) (width? : Option ℚ)
    (seed : Nat) (stateA stateB : Nat) :
    create_shrub height width? seed stateA = create_shrub height width? seed stateB := rfl

end Greenkeeper
